import Mathlib

/-!
Verification of the grant-contract repository.

Two Soroban contracts are embedded shallowly:

* `MC` — the milestone-based grant contract
  (contracts/grant_contracts/src/lib.rs): grants with a total amount,
  milestones approved by an admin, a hard cap on the cumulative released
  amount.
* `SC` — the streaming grant contract (src/lib.rs): grants with a
  per-second flow rate, withdrawals gated by pause and dispute flags, a
  set-once arbiter.

Modelling conventions:

* Addresses, symbols and token identifiers are opaque and modelled as `Nat`.
* The persistent key-value store is modelled as an association list with
  insert-at-front overwrite semantics; `find` returns the newest binding.
  The milestone contract keys milestones by the string
  "milestone:{grant_id}:{milestone_id}", which is injective in the pair
  (grant id, milestone id) because Soroban symbols cannot contain a colon;
  we key milestones by that pair directly.
* `i128` values are `Int`; the contracts are compiled with the Soroban
  release profile (overflow-checks enabled), so an arithmetic overflow
  panics and aborts the whole transaction.  Arithmetic whose operands are
  not known to stay in range is modelled by checked operations returning
  `Option`; `none` propagates as an abort with no state change.
* `u64` timestamps are `Nat`; the unchecked `u64` subtraction in the
  source panics on underflow under that profile (and would wrap, not
  saturate, without it), so it is modelled by `checkedSub64`.
* `require_auth`, token transfers, events and TTL bumps are external
  collaborators.  Authorization always succeeds in the model (the claims
  under study are not about authorization).  The token `transfer` used by
  the streaming `create_grant` is the standard Soroban (SEP-41) token
  client, which aborts on a negative amount; that abort is modelled
  explicitly.  A failed operation commits nothing (Soroban rolls the
  transaction back), which the `Except`-valued operations reflect.
-/

namespace GrantVerify

set_option maxRecDepth 100000

/-- `i128::MIN`. -/
def I128_MIN : Int := -(2 ^ 127)

/-- `i128::MAX`. -/
def I128_MAX : Int := 2 ^ 127 - 1

/-- Checked `i128` addition: `none` models the overflow panic of the
overflow-checked build. -/
def checkedAdd128 (a b : Int) : Option Int :=
  if I128_MIN ≤ a + b ∧ a + b ≤ I128_MAX then some (a + b) else none

/-- Checked `i128` multiplication: `none` models the overflow panic. -/
def checkedMul128 (a b : Int) : Option Int :=
  if I128_MIN ≤ a * b ∧ a * b ≤ I128_MAX then some (a * b) else none

/-- Checked `u64` subtraction.  The source computes
`current_time - grant.last_claim_time` with a plain `u64` subtraction,
which panics on underflow in the overflow-checked build (and wraps
without it); in neither build does it saturate at zero. -/
def checkedSub64 (a b : Nat) : Option Nat :=
  if b ≤ a then some (a - b) else none

/-- Association-list lookup for the persistent store; the newest binding
wins, matching overwrite-by-`set` semantics. -/
def find {κ α : Type} [DecidableEq κ] : List (κ × α) → κ → Option α
  | [], _ => none
  | (k', v) :: t, k => if k' = k then some v else find t k

/-! ## Milestone grant contract (contracts/grant_contracts/src/lib.rs) -/

namespace MC

/-- `Grant` record of the milestone contract. -/
structure Grant where
  admin : Nat
  grantee : Nat
  total_amount : Int
  released_amount : Int
deriving DecidableEq, Repr

/-- `Milestone` record; `status`: 0 = Pending, 1 = Approved, 2 = Released. -/
structure Milestone where
  amount : Int
  status : Nat
  description : String
deriving DecidableEq, Repr

/-- Contract storage: grants keyed by grant id, milestones keyed by the
(grant id, milestone id) pair encoded by the "milestone:g:m" key string. -/
structure State where
  grants : List (Nat × Grant)
  milestones : List ((Nat × Nat) × Milestone)
deriving DecidableEq, Repr

/-- Failure modes of the milestone contract.  The first six are the `Err`
strings returned by the source; `overflow` is the arithmetic panic of the
overflow-checked build. -/
inductive Err where
  | grantExists
  | grantNotFound
  | milestoneNotFound
  | milestoneExists
  | alreadyReleased
  | exceedsTotal
  | overflow
deriving DecidableEq, Repr

/-- `create_grant`: fails if the id exists, else stores a grant with
`released_amount = 0` and returns the id. -/
def create_grant (s : State) (grant_id admin grantee : Nat) (total_amount : Int) :
    Except Err (State × Nat) :=
  if (find s.grants grant_id).isSome then
    .error .grantExists
  else
    .ok ({ s with grants :=
            (grant_id, { admin := admin, grantee := grantee,
                         total_amount := total_amount, released_amount := 0 }) :: s.grants },
         grant_id)

/-- `add_milestone`: fails if the grant is absent or the milestone exists,
else stores the milestone with status 0 (Pending) and returns its id. -/
def add_milestone (s : State) (grant_id milestone_id : Nat) (amount : Int)
    (description : String) : Except Err (State × Nat) :=
  match find s.grants grant_id with
  | none => .error .grantNotFound
  | some _ =>
    if (find s.milestones (grant_id, milestone_id)).isSome then
      .error .milestoneExists
    else
      .ok ({ s with milestones :=
              ((grant_id, milestone_id),
               { amount := amount, status := 0, description := description }) :: s.milestones },
           milestone_id)

/-- `approve_milestone`: fails if the grant or milestone is absent, if the
milestone is already Released, or if the released total would exceed
`total_amount`; on success sets the status to 2 (Released), adds the
milestone amount to `released_amount` and returns that amount. -/
def approve_milestone (s : State) (grant_id milestone_id : Nat) :
    Except Err (State × Int) :=
  match find s.grants grant_id with
  | none => .error .grantNotFound
  | some grant =>
    match find s.milestones (grant_id, milestone_id) with
    | none => .error .milestoneNotFound
    | some milestone =>
      if milestone.status = 2 then
        .error .alreadyReleased
      else
        match checkedAdd128 grant.released_amount milestone.amount with
        | none => .error .overflow
        | some sum =>
          if sum > grant.total_amount then
            .error .exceedsTotal
          else
            .ok ({ grants := (grant_id, { grant with released_amount := sum }) :: s.grants,
                   milestones := ((grant_id, milestone_id),
                                  { milestone with status := 2 }) :: s.milestones },
                 milestone.amount)

/-- The public operations of the milestone contract. -/
inductive Op where
  | create (grant_id admin grantee : Nat) (total_amount : Int)
  | addM (grant_id milestone_id : Nat) (amount : Int) (description : String)
  | approve (grant_id milestone_id : Nat)

/-- One transaction: a failed operation commits nothing. -/
def step (s : State) (op : Op) : State :=
  match op with
  | .create gid a g t =>
    match create_grant s gid a g t with
    | .ok (s', _) => s'
    | .error _ => s
  | .addM gid mid amt d =>
    match add_milestone s gid mid amt d with
    | .ok (s', _) => s'
    | .error _ => s
  | .approve gid mid =>
    match approve_milestone s gid mid with
    | .ok (s', _) => s'
    | .error _ => s

/-- Empty storage. -/
def init : State := { grants := [], milestones := [] }

/-- Run a sequence of public operations from empty storage. -/
def run (ops : List Op) : State := ops.foldl step init

end MC

/-! ## Streaming grant contract (src/lib.rs) -/

namespace SC

/-- `Grant` record of the streaming contract. -/
structure Grant where
  admin : Nat
  grantee : Nat
  flow_rate : Int
  balance : Int
  last_claim_time : Nat
  is_paused : Bool
  token : Nat
  dispute_active : Bool
deriving DecidableEq, Repr

/-- Instance storage: `DataKey.Grant(id)` entries, the `Count` counter and
the optional `Arbiter` singleton. -/
structure State where
  grants : List (Nat × Grant)
  count : Nat
  arbiter : Option Nat
deriving DecidableEq, Repr

/-- Failure modes of the streaming contract: the five panics of the
source, the abort of the external token `transfer` on a negative amount,
and the arithmetic panic of the overflow-checked build. -/
inductive Err where
  | notFound
  | paused
  | disputed
  | noArbiter
  | arbiterSet
  | transferFailed
  | overflow
deriving DecidableEq, Repr

/-- `set_arbiter`: panics if an arbiter is already stored, else stores the
arbiter identity. -/
def set_arbiter (s : State) (_admin arbiter : Nat) : Except Err State :=
  if s.arbiter.isSome then
    .error .arbiterSet
  else
    .ok { s with arbiter := some arbiter }

/-- `set_dispute_state`: panics if no arbiter is set or the grant is
absent; only the arbiter's authorization is required; sets the
`dispute_active` flag. -/
def set_dispute_state (s : State) (grant_id : Nat) (active : Bool) : Except Err State :=
  match s.arbiter with
  | none => .error .noArbiter
  | some _ =>
    match find s.grants grant_id with
    | none => .error .notFound
    | some grant =>
      .ok { s with grants := (grant_id, { grant with dispute_active := active }) :: s.grants }

/-- `create_grant`: mints an id from the counter, transfers `deposit`
into contract custody (the SEP-41 token client aborts on a negative
amount, failing the whole operation with nothing created), then stores a
grant with `balance = deposit`, `last_claim_time = now` and both flags
false, and returns the id.  The `u64` counter increment is modelled as
plain `Nat` successor; its overflow needs 2^64 creations and is
unreachable. -/
def create_grant (s : State) (admin grantee : Nat) (deposit flow_rate : Int)
    (token : Nat) (now : Nat) : Except Err (State × Nat) :=
  let count := s.count + 1
  if deposit < 0 then
    .error .transferFailed
  else
    .ok ({ grants := (count, { admin := admin, grantee := grantee, flow_rate := flow_rate,
                               balance := deposit, last_claim_time := now,
                               is_paused := false, token := token,
                               dispute_active := false }) :: s.grants,
           count := count, arbiter := s.arbiter },
         count)

/-- `withdraw`: panics `notFound` if the grant is absent (the source
`unwrap`), `paused`/`disputed` if a freeze flag is set; computes
`seconds_passed = now - last_claim_time` (unchecked `u64` subtraction,
see `checkedSub64`), `amount_due = flow_rate * seconds_passed` (checked
`i128` multiplication) and `payout = amount_due` if
`balance >= amount_due`, else `balance`; if `payout > 0` it transfers the
payout (external), decrements `balance` and advances `last_claim_time`;
otherwise nothing is written.  The source returns unit; the model also
returns the computed payout so that specifications can speak about it.
The subtraction `balance - payout` cannot leave the `i128` range: payout
is either `amount_due ≤ balance` or `balance` itself, so the difference
lies between 0 and `balance`. -/
def withdraw (s : State) (grant_id : Nat) (now : Nat) : Except Err (State × Int) :=
  match find s.grants grant_id with
  | none => .error .notFound
  | some grant =>
    if grant.is_paused then
      .error .paused
    else if grant.dispute_active then
      .error .disputed
    else
      match checkedSub64 now grant.last_claim_time with
      | none => .error .overflow
      | some seconds_passed =>
        match checkedMul128 grant.flow_rate (seconds_passed : Int) with
        | none => .error .overflow
        | some amount_due =>
          let payout := if grant.balance ≥ amount_due then amount_due else grant.balance
          if payout > 0 then
            let grant' : Grant :=
              { grant with balance := grant.balance - payout, last_claim_time := now }
            .ok ({ s with grants := (grant_id, grant') :: s.grants }, payout)
          else
            .ok (s, payout)

/-- `set_pause`: panics if the grant is absent (the source `unwrap`);
sets the `is_paused` flag. -/
def set_pause (s : State) (grant_id : Nat) (pause_state : Bool) : Except Err State :=
  match find s.grants grant_id with
  | none => .error .notFound
  | some grant =>
    .ok { s with grants := (grant_id, { grant with is_paused := pause_state }) :: s.grants }

/-- The public operations of the streaming contract; timestamp-reading
operations carry the ambient ledger time. -/
inductive Op where
  | create (admin grantee : Nat) (deposit flow_rate : Int) (token : Nat) (now : Nat)
  | withdrawOp (grant_id : Nat) (now : Nat)
  | setPause (grant_id : Nat) (pause_state : Bool)
  | setDispute (grant_id : Nat) (active : Bool)
  | setArbiter (admin arbiter : Nat)

/-- One transaction: a failed operation commits nothing. -/
def step (s : State) (op : Op) : State :=
  match op with
  | .create a g d f tok now =>
    match create_grant s a g d f tok now with
    | .ok (s', _) => s'
    | .error _ => s
  | .withdrawOp gid now =>
    match withdraw s gid now with
    | .ok (s', _) => s'
    | .error _ => s
  | .setPause gid p =>
    match set_pause s gid p with
    | .ok s' => s'
    | .error _ => s
  | .setDispute gid a =>
    match set_dispute_state s gid a with
    | .ok s' => s'
    | .error _ => s
  | .setArbiter a arb =>
    match set_arbiter s a arb with
    | .ok s' => s'
    | .error _ => s

/-- Empty instance storage. -/
def init : State := { grants := [], count := 0, arbiter := none }

/-- Run a sequence of public operations from empty storage. -/
def run (ops : List Op) : State := ops.foldl step init

end SC

/-! ## Vesting calculator -/

/-- Modelled from the spec: the repository's `VestingCalculator`
(`compute_claimable_balance`) is not among the provided source files;
this definition follows spec §4.1 word for word.  `duration == 0` vests
everything at `start`; `now ≤ start` yields 0; elapsed time is clamped at
0; `elapsed ≥ duration` is clamped to `total`; otherwise the result is
`q * elapsed + r * elapsed / duration` with `q = total / duration` and
`r = total % duration`, and if either product would leave the `i128`
range the function returns `total` (the documented conservative
fallback). -/
def compute_claimable_balance (total start now duration : Int) : Int :=
  if duration = 0 then
    if now ≥ start then total else 0
  else if now ≤ start then
    0
  else
    let elapsed := max 0 (now - start)
    if elapsed ≥ duration then
      total
    else
      let q := total / duration
      let r := total % duration
      if I128_MIN ≤ q * elapsed ∧ q * elapsed ≤ I128_MAX ∧
         I128_MIN ≤ r * elapsed ∧ r * elapsed ≤ I128_MAX then
        q * elapsed + r * elapsed / duration
      else
        total

/-! ## Invariant predicates and concrete scenario states -/

/-- Arguments a caller can actually pass meaningfully: grant creations
with a nonnegative total and milestones with a nonnegative amount.  The
source validates neither. -/
def MC.GoodOp : MC.Op → Prop
  | .create _ _ _ total_amount => 0 ≤ total_amount
  | .addM _ _ amount _ => 0 ≤ amount
  | .approve _ _ => True

instance : DecidablePred MC.GoodOp := fun op => by
  cases op <;> (dsimp [MC.GoodOp]; infer_instance)

/-- Milestone-ledger invariant: every stored grant satisfies
`0 ≤ released_amount ≤ total_amount` and every stored milestone has a
nonnegative amount. -/
def MC.Inv (s : MC.State) : Prop :=
  (∀ k g, find s.grants k = some g → 0 ≤ g.released_amount ∧ g.released_amount ≤ g.total_amount)
  ∧ (∀ k m, find s.milestones k = some m → 0 ≤ m.amount)

/-- Milestone-status invariant: every stored milestone is Pending (0) or
Released (2); the Approved value (1) never occurs. -/
def MC.StatusOK (s : MC.State) : Prop :=
  ∀ k m, find s.milestones k = some m → m.status = 0 ∨ m.status = 2

/-- Streaming-ledger invariant: every stored grant has a nonnegative
balance. -/
def SC.BalInv (s : SC.State) : Prop :=
  ∀ k g, find s.grants k = some g → 0 ≤ g.balance

/-- Operation sequence refuting claim C2 as stated: a milestone with a
negative amount is accepted and its approval drives `released_amount`
below zero. -/
def MC.C2ops : List MC.Op :=
  [.create 1 7 8 100, .addM 1 2 (-50) "", .approve 1 2]

/-- Streaming grant refuting claim C10 as stated: zero balance with
positive accrual. -/
def SC.C10grant : SC.Grant :=
  { admin := 7, grantee := 8, flow_rate := 1, balance := 0, last_claim_time := 0,
    is_paused := false, token := 9, dispute_active := false }

/-- State holding `SC.C10grant` under id 1. -/
def SC.C10state : SC.State :=
  { grants := [(1, SC.C10grant)], count := 1, arbiter := none }

/-- Streaming grant used for the clock-regression failing input of C6:
`last_claim_time = 10`, withdrawn at ledger time 3. -/
def SC.C6grant : SC.Grant :=
  { admin := 7, grantee := 8, flow_rate := 5, balance := 1000, last_claim_time := 10,
    is_paused := false, token := 9, dispute_active := false }

/-- State holding `SC.C6grant` under id 1. -/
def SC.C6state : SC.State :=
  { grants := [(1, SC.C6grant)], count := 1, arbiter := none }

/-! ## Helper lemmas -/

theorem find_cons {κ α : Type} [DecidableEq κ] (a : κ) (v : α) (t : List (κ × α)) (k : κ) :
    find ((a, v) :: t) k = if a = k then some v else find t k := rfl

/-- Inversion of a successful `create_grant` on the milestone ledger. -/
theorem MC.create_grant_milestone_ok (s : MC.State) (gid a gr : Nat) (t : Int) (s' : MC.State) (r : Nat)
    (h : MC.create_grant s gid a gr t = .ok (s', r)) :
    find s.grants gid = none ∧ r = gid
    ∧ s' = { s with grants :=
        (gid, { admin := a, grantee := gr, total_amount := t, released_amount := 0 })
          :: s.grants } := by
  unfold MC.create_grant at h
  split at h
  · cases h
  · next hex =>
    cases h
    exact ⟨Option.not_isSome_iff_eq_none.mp hex, rfl, rfl⟩

/-- Inversion of a successful `add_milestone`. -/
theorem MC.add_milestone_ok (s : MC.State) (gid mid : Nat) (amt : Int) (d : String)
    (s' : MC.State) (r : Nat)
    (h : MC.add_milestone s gid mid amt d = .ok (s', r)) :
    (∃ g, find s.grants gid = some g) ∧ find s.milestones (gid, mid) = none ∧ r = mid
    ∧ s' = { s with milestones :=
        ((gid, mid), { amount := amt, status := 0, description := d }) :: s.milestones } := by
  unfold MC.add_milestone at h
  split at h
  · cases h
  · next g hg =>
    split at h
    · cases h
    · next hex =>
      cases h
      exact ⟨⟨g, hg⟩, Option.not_isSome_iff_eq_none.mp hex, rfl, rfl⟩

/-- Inversion of a successful `approve_milestone`. -/
theorem MC.approve_milestone_ok (s : MC.State) (gid mid : Nat) (s' : MC.State) (r : Int)
    (h : MC.approve_milestone s gid mid = .ok (s', r)) :
    ∃ g m, find s.grants gid = some g ∧ find s.milestones (gid, mid) = some m
      ∧ m.status ≠ 2
      ∧ I128_MIN ≤ g.released_amount + m.amount ∧ g.released_amount + m.amount ≤ I128_MAX
      ∧ g.released_amount + m.amount ≤ g.total_amount
      ∧ r = m.amount
      ∧ s' = { grants :=
                 (gid, { g with released_amount := g.released_amount + m.amount }) :: s.grants,
               milestones := ((gid, mid), { m with status := 2 }) :: s.milestones } := by
  unfold MC.approve_milestone at h
  split at h
  · cases h
  · next g hg =>
    split at h
    · cases h
    · next m hm =>
      split at h
      · cases h
      · next hst =>
        split at h
        · cases h
        · next sum hsum =>
          have hrange : I128_MIN ≤ g.released_amount + m.amount
              ∧ g.released_amount + m.amount ≤ I128_MAX
              ∧ sum = g.released_amount + m.amount := by
            unfold checkedAdd128 at hsum
            split at hsum
            · next hc => exact ⟨hc.1, hc.2, (Option.some.inj hsum).symm⟩
            · cases hsum
          obtain ⟨hlo, hhi, hsumeq⟩ := hrange
          subst hsumeq
          split at h
          · cases h
          · next hcap =>
            cases h
            exact ⟨g, m, hg, hm, hst, hlo, hhi, by omega, rfl, rfl⟩

/-- A failed milestone-ledger operation commits nothing. -/
theorem MC.step_error (s : MC.State) (op : MC.Op) :
    MC.step s op = s ∨
    ∃ s', MC.step s op = s' ∧
      ((∃ gid a gr t r, op = .create gid a gr t
          ∧ MC.create_grant s gid a gr t = .ok (s', r))
       ∨ (∃ gid mid amt d r, op = .addM gid mid amt d
          ∧ MC.add_milestone s gid mid amt d = .ok (s', r))
       ∨ (∃ gid mid r, op = .approve gid mid
          ∧ MC.approve_milestone s gid mid = .ok (s', r))) := by
  cases op with
  | create gid a gr t =>
    rcases hres : MC.create_grant s gid a gr t with e | p
    · left; simp [MC.step, hres]
    · right
      exact ⟨p.1, by simp [MC.step, hres], Or.inl ⟨gid, a, gr, t, p.2, rfl, by rw [hres]⟩⟩
  | addM gid mid amt d =>
    rcases hres : MC.add_milestone s gid mid amt d with e | p
    · left; simp [MC.step, hres]
    · right
      exact ⟨p.1, by simp [MC.step, hres],
        Or.inr (Or.inl ⟨gid, mid, amt, d, p.2, rfl, by rw [hres]⟩)⟩
  | approve gid mid =>
    rcases hres : MC.approve_milestone s gid mid with e | p
    · left; simp [MC.step, hres]
    · right
      exact ⟨p.1, by simp [MC.step, hres],
        Or.inr (Or.inr ⟨gid, mid, p.2, rfl, by rw [hres]⟩)⟩

/-- One good operation preserves the milestone-ledger invariant. -/
theorem MC.inv_step (s : MC.State) (op : MC.Op) (h : MC.Inv s) (hop : MC.GoodOp op) :
    MC.Inv (MC.step s op) := by
  obtain ⟨hgr, hms⟩ := h
  rcases MC.step_error s op with heq | ⟨s', heq, hok⟩
  · rw [heq]; exact ⟨hgr, hms⟩
  rw [heq]
  rcases hok with ⟨gid, a, gr, t, r, hopEq, hres⟩ | ⟨gid, mid, amt, d, r, hopEq, hres⟩
    | ⟨gid, mid, r, hopEq, hres⟩
  · obtain ⟨-, -, rfl⟩ := MC.create_grant_milestone_ok _ _ _ _ _ _ _ hres
    subst hopEq
    constructor
    · intro k g hk
      rw [find_cons] at hk
      split at hk
      · cases hk
        exact ⟨le_refl 0, hop⟩
      · exact hgr k g hk
    · exact hms
  · obtain ⟨-, -, -, rfl⟩ := MC.add_milestone_ok _ _ _ _ _ _ _ hres
    subst hopEq
    constructor
    · exact hgr
    · intro k m hk
      rw [find_cons] at hk
      split at hk
      · cases hk
        exact hop
      · exact hms k m hk
  · obtain ⟨g, m, hg, hm, -, -, -, hcap, -, rfl⟩ := MC.approve_milestone_ok _ _ _ _ _ hres
    constructor
    · intro k g' hk
      rw [find_cons] at hk
      split at hk
      · cases hk
        have h1 := hgr gid g hg
        have h2 := hms (gid, mid) m hm
        constructor
        · show 0 ≤ g.released_amount + m.amount
          omega
        · show g.released_amount + m.amount ≤ g.total_amount
          exact hcap
      · exact hgr k g' hk
    · intro k m' hk
      rw [find_cons] at hk
      split at hk
      · cases hk
        show 0 ≤ m.amount
        exact hms (gid, mid) m hm
      · exact hms k m' hk

/-- One good operation never decreases any grant's released amount, and
never deletes a grant. -/
theorem MC.mono_step (s : MC.State) (op : MC.Op) (h : MC.Inv s) (hop : MC.GoodOp op)
    (k : Nat) (g : MC.Grant) (hk : find s.grants k = some g) :
    ∃ g', find (MC.step s op).grants k = some g'
      ∧ g.released_amount ≤ g'.released_amount := by
  rcases MC.step_error s op with heq | ⟨s', heq, hok⟩
  · exact ⟨g, by rw [heq, hk], le_refl _⟩
  rw [heq]
  rcases hok with ⟨gid, a, gr, t, r, hopEq, hres⟩ | ⟨gid, mid, amt, d, r, hopEq, hres⟩
    | ⟨gid, mid, r, hopEq, hres⟩
  · obtain ⟨habs, -, rfl⟩ := MC.create_grant_milestone_ok _ _ _ _ _ _ _ hres
    refine ⟨g, ?_, le_refl _⟩
    rw [find_cons]
    split
    · next hgidk => rw [← hgidk] at hk; rw [habs] at hk; cases hk
    · exact hk
  · obtain ⟨-, -, -, rfl⟩ := MC.add_milestone_ok _ _ _ _ _ _ _ hres
    exact ⟨g, hk, le_refl _⟩
  · obtain ⟨g₀, m, hg, hm, -, -, -, -, -, rfl⟩ := MC.approve_milestone_ok _ _ _ _ _ hres
    have hamt : 0 ≤ m.amount := h.2 (gid, mid) m hm
    by_cases hgidk : gid = k
    · subst hgidk
      rw [hk] at hg
      cases hg
      refine ⟨{ g with released_amount := g.released_amount + m.amount }, ?_, ?_⟩
      · rw [find_cons, if_pos rfl]
      · show g.released_amount ≤ g.released_amount + m.amount
        omega
    · refine ⟨g, ?_, le_refl _⟩
      rw [find_cons, if_neg hgidk]
      exact hk

/-- The empty milestone ledger satisfies the invariant. -/
theorem MC.inv_init : MC.Inv MC.init := by
  constructor <;> (intro k x hk; simp [MC.init, find] at hk)

/-- The invariant holds along any fold of good operations. -/
theorem MC.inv_foldl (ops : List MC.Op) (s : MC.State) (h : MC.Inv s)
    (hops : ∀ op ∈ ops, MC.GoodOp op) : MC.Inv (ops.foldl MC.step s) := by
  induction ops generalizing s with
  | nil => exact h
  | cons op rest ih =>
    exact ih (MC.step s op) (MC.inv_step s op h (hops op (by simp)))
      (fun o ho => hops o (by simp [ho]))

/-- Released amounts are monotone along any fold of good operations. -/
theorem MC.mono_foldl (ops : List MC.Op) (s : MC.State) (h : MC.Inv s)
    (hops : ∀ op ∈ ops, MC.GoodOp op) (k : Nat) (g : MC.Grant)
    (hk : find s.grants k = some g) :
    ∃ g', find (ops.foldl MC.step s).grants k = some g'
      ∧ g.released_amount ≤ g'.released_amount := by
  induction ops generalizing s g with
  | nil => exact ⟨g, hk, le_refl _⟩
  | cons op rest ih =>
    obtain ⟨g₁, hg₁, hle₁⟩ := MC.mono_step s op h (hops op (by simp)) k g hk
    obtain ⟨g₂, hg₂, hle₂⟩ := ih (MC.step s op)
      (MC.inv_step s op h (hops op (by simp))) (fun o ho => hops o (by simp [ho])) g₁ hg₁
    exact ⟨g₂, hg₂, le_trans hle₁ hle₂⟩

/-- Every operation (good or not) keeps all stored milestone statuses in
{0, 2}. -/
theorem MC.statusOK_step (s : MC.State) (op : MC.Op) (h : MC.StatusOK s) :
    MC.StatusOK (MC.step s op) := by
  rcases MC.step_error s op with heq | ⟨s', heq, hok⟩
  · rw [heq]; exact h
  rw [heq]
  rcases hok with ⟨gid, a, gr, t, r, hopEq, hres⟩ | ⟨gid, mid, amt, d, r, hopEq, hres⟩
    | ⟨gid, mid, r, hopEq, hres⟩
  · obtain ⟨-, -, rfl⟩ := MC.create_grant_milestone_ok _ _ _ _ _ _ _ hres
    exact h
  · obtain ⟨-, -, -, rfl⟩ := MC.add_milestone_ok _ _ _ _ _ _ _ hres
    intro k m hk
    rw [find_cons] at hk
    split at hk
    · cases hk; exact Or.inl rfl
    · exact h k m hk
  · obtain ⟨g, m, hg, hm, -, -, -, -, -, rfl⟩ := MC.approve_milestone_ok _ _ _ _ _ hres
    intro k m' hk
    rw [find_cons] at hk
    split at hk
    · cases hk; exact Or.inr rfl
    · exact h k m' hk

/-- All stored milestone statuses are in {0, 2} in any reachable state. -/
theorem MC.statusOK_run (ops : List MC.Op) : MC.StatusOK (MC.run ops) := by
  have aux : ∀ (l : List MC.Op) (s : MC.State), MC.StatusOK s →
      MC.StatusOK (l.foldl MC.step s) := by
    intro l
    induction l with
    | nil => exact fun s hs => hs
    | cons op rest ih => exact fun s hs => ih (MC.step s op) (MC.statusOK_step s op hs)
  exact aux ops MC.init (by intro k m hk; simp [MC.init, find] at hk)

/-- Inversion of a successful streaming `create_grant`: the deposit was
accepted by the token transfer (hence nonnegative) and the new grant is
stored under the freshly minted id with `balance = deposit`. -/
theorem SC.create_grant_streaming_ok (s : SC.State) (a gr : Nat) (d f : Int) (tok now : Nat)
    (s' : SC.State) (r : Nat)
    (h : SC.create_grant s a gr d f tok now = .ok (s', r)) :
    0 ≤ d ∧ r = s.count + 1
    ∧ s' = { grants := (s.count + 1,
               { admin := a, grantee := gr, flow_rate := f, balance := d,
                 last_claim_time := now, is_paused := false, token := tok,
                 dispute_active := false }) :: s.grants,
             count := s.count + 1, arbiter := s.arbiter } := by
  unfold SC.create_grant at h
  split at h
  · cases h
  · next hd =>
    cases h
    exact ⟨by omega, rfl, rfl⟩

/-- Inversion of a successful streaming `withdraw`. -/
theorem SC.withdraw_ok (s : SC.State) (gid now : Nat) (s' : SC.State) (p : Int)
    (h : SC.withdraw s gid now = .ok (s', p)) :
    ∃ g, find s.grants gid = some g ∧ g.is_paused = false ∧ g.dispute_active = false
      ∧ g.last_claim_time ≤ now
      ∧ ∃ due, checkedMul128 g.flow_rate ((now - g.last_claim_time : Nat) : Int) = some due
          ∧ p = (if g.balance ≥ due then due else g.balance)
          ∧ ((0 < p ∧ s' = { s with grants :=
                (gid, { g with balance := g.balance - p, last_claim_time := now })
                  :: s.grants })
             ∨ (p ≤ 0 ∧ s' = s)) := by
  unfold SC.withdraw at h
  split at h
  · cases h
  · next g hg =>
    split at h
    · cases h
    · next hp =>
      split at h
      · cases h
      · next hd =>
        split at h
        · cases h
        · next sp hsp =>
          have hsub : g.last_claim_time ≤ now ∧ sp = now - g.last_claim_time := by
            unfold checkedSub64 at hsp
            split at hsp
            · next hc => exact ⟨hc, (Option.some.inj hsp).symm⟩
            · cases hsp
          obtain ⟨hle, hspeq⟩ := hsub
          subst hspeq
          split at h
          · cases h
          · next due hdue =>
            refine ⟨g, hg, by simpa using hp, by simpa using hd, hle, due, hdue, ?_⟩
            split at h
            · next hge =>
              dsimp only at h
              split at h
              · next hpos =>
                cases h
                exact ⟨(if_pos hge).symm, Or.inl ⟨hpos, rfl⟩⟩
              · next hpos =>
                cases h
                exact ⟨(if_pos hge).symm, Or.inr ⟨by omega, rfl⟩⟩
            · next hge =>
              dsimp only at h
              split at h
              · next hpos =>
                cases h
                exact ⟨(if_neg hge).symm, Or.inl ⟨hpos, rfl⟩⟩
              · next hpos =>
                cases h
                exact ⟨(if_neg hge).symm, Or.inr ⟨by omega, rfl⟩⟩

/-- Every streaming operation preserves nonnegativity of all balances. -/
theorem SC.balInv_step (s : SC.State) (op : SC.Op) (h : SC.BalInv s) :
    SC.BalInv (SC.step s op) := by
  cases op with
  | create a gr d f tok now =>
    rcases hres : SC.create_grant s a gr d f tok now with e | p
    · simpa [SC.step, hres] using h
    · obtain ⟨s', r⟩ := p
      obtain ⟨hd, -, rfl⟩ := SC.create_grant_streaming_ok _ _ _ _ _ _ _ _ _ hres
      simp only [SC.step, hres]
      intro k g hk
      rw [find_cons] at hk
      split at hk
      · cases hk
        exact hd
      · exact h k g hk
  | withdrawOp gid now =>
    rcases hres : SC.withdraw s gid now with e | p
    · simpa [SC.step, hres] using h
    · obtain ⟨s', p⟩ := p
      obtain ⟨g, hg, -, -, -, due, -, hpv, hcases⟩ := SC.withdraw_ok _ _ _ _ _ hres
      simp only [SC.step, hres]
      rcases hcases with ⟨hpos, rfl⟩ | ⟨hnp, rfl⟩
      · intro k g' hk
        rw [find_cons] at hk
        split at hk
        · cases hk
          show 0 ≤ g.balance - p
          have hb := h gid g hg
          rw [hpv]
          split <;> omega
        · exact h k g' hk
      · exact h
  | setPause gid ps =>
    rcases hres : SC.set_pause s gid ps with e | s₁
    · simpa [SC.step, hres] using h
    · have hinv : ∃ g, find s.grants gid = some g
          ∧ s₁ = { s with grants := (gid, { g with is_paused := ps }) :: s.grants } := by
        unfold SC.set_pause at hres
        split at hres
        · cases hres
        · next g hg => exact ⟨g, hg, (Except.ok.inj hres).symm⟩
      obtain ⟨g, hg, rfl⟩ := hinv
      simp only [SC.step, hres]
      intro k g' hk
      rw [find_cons] at hk
      split at hk
      · cases hk
        exact h gid g hg
      · exact h k g' hk
  | setDispute gid a =>
    rcases hres : SC.set_dispute_state s gid a with e | s₁
    · simpa [SC.step, hres] using h
    · have hinv : ∃ g, find s.grants gid = some g
          ∧ s₁ = { s with grants := (gid, { g with dispute_active := a }) :: s.grants } := by
        unfold SC.set_dispute_state at hres
        split at hres
        · cases hres
        · split at hres
          · cases hres
          · next g hg => exact ⟨g, hg, (Except.ok.inj hres).symm⟩
      obtain ⟨g, hg, rfl⟩ := hinv
      simp only [SC.step, hres]
      intro k g' hk
      rw [find_cons] at hk
      split at hk
      · cases hk
        exact h gid g hg
      · exact h k g' hk
  | setArbiter a arb =>
    rcases hres : SC.set_arbiter s a arb with e | s₁
    · simpa [SC.step, hres] using h
    · have hgr : s₁.grants = s.grants := by
        unfold SC.set_arbiter at hres
        split at hres
        · cases hres
        · cases hres; rfl
      simp only [SC.step, hres]
      intro k g hk
      rw [hgr] at hk
      exact h k g hk

/-- All balances are nonnegative in any reachable streaming state. -/
theorem SC.balInv_run (ops : List SC.Op) : SC.BalInv (SC.run ops) := by
  have aux : ∀ (l : List SC.Op) (s : SC.State), SC.BalInv s →
      SC.BalInv (l.foldl SC.step s) := by
    intro l
    induction l with
    | nil => exact fun s hs => hs
    | cons op rest ih => exact fun s hs => ih (SC.step s op) (SC.balInv_step s op hs)
  exact aux ops SC.init (by intro k g hk; simp [SC.init, find] at hk)

/-! ## Claim theorems -/

/-- C7: for every total, start and duration > 0,
`compute_claimable_balance total start start duration = 0`, and for every
`now` with `now - start ≥ duration` the result is exactly `total`, no
matter how far past expiry. -/
theorem C7_vesting_boundaries (total start duration : Int) (hd : 0 < duration) :
    compute_claimable_balance total start start duration = 0
    ∧ ∀ now, duration ≤ now - start → compute_claimable_balance total start now duration = total := by
  have hne : duration ≠ 0 := hd.ne'
  refine ⟨?_, ?_⟩
  · simp [compute_claimable_balance, hne]
  · intro now h
    have hns : ¬ now ≤ start := by omega
    have hel : duration ≤ max 0 (now - start) := le_trans h (le_max_right _ _)
    simp [compute_claimable_balance, hne, hns, hel]

/-- C7 witness: boundary values at total 1000, start 50, duration 10. -/
theorem C7_vesting_boundaries_witness :
    compute_claimable_balance 1000 50 50 10 = 0
    ∧ compute_claimable_balance 1000 50 65 10 = 1000 :=
  ⟨(C7_vesting_boundaries 1000 50 10 (by decide)).1,
   (C7_vesting_boundaries 1000 50 10 (by decide)).2 65 (by decide)⟩

/-- C6: the claim says the elapsed-time subtraction saturates at zero
when `now < last_claim_time`; the source instead performs an unchecked
`u64` subtraction, which panics on underflow under the overflow-checked
release profile (and would wrap, not saturate, without it).  At
`last_claim_time = 10`, `now = 3` the withdrawal aborts instead of
succeeding as the saturated no-op the spec demands. -/
theorem C6_elapsed_time_underflow :
    SC.withdraw SC.C6state 1 3 = .error .overflow
    ∧ checkedSub64 3 SC.C6grant.last_claim_time = none := ⟨rfl, rfl⟩

/-- C8: once `set_arbiter` has succeeded, any second call fails (with any
arguments) and the stored arbiter identity is unchanged: the first
registered arbiter remains the singleton. -/
theorem C8_set_arbiter_once (s s' : SC.State) (a₁ x₁ a₂ x₂ : Nat)
    (h : SC.set_arbiter s a₁ x₁ = .ok s') :
    s'.arbiter = some x₁
    ∧ SC.set_arbiter s' a₂ x₂ = .error .arbiterSet
    ∧ SC.step s' (.setArbiter a₂ x₂) = s' := by
  unfold SC.set_arbiter at h
  split at h
  · cases h
  · cases h
    refine ⟨rfl, ?_, ?_⟩ <;> simp [SC.set_arbiter, SC.step]

/-- C8 witness: register arbiter 42 on empty storage, then attempt a
second registration. -/
theorem C8_set_arbiter_once_witness :
    ({ grants := [], count := 0, arbiter := some 42 } : SC.State).arbiter = some 42
    ∧ SC.set_arbiter { grants := [], count := 0, arbiter := some 42 } 5 6 = .error .arbiterSet
    ∧ SC.step { grants := [], count := 0, arbiter := some 42 } (.setArbiter 5 6)
        = { grants := [], count := 0, arbiter := some 42 } :=
  C8_set_arbiter_once SC.init { grants := [], count := 0, arbiter := some 42 } 7 42 5 6 rfl

/-- C4: a withdrawal on a grant with `is_paused` or `dispute_active` set
fails with one of the two freeze panics, and the transaction commits
nothing: the grant (balance, `last_claim_time` and all other fields) is
unchanged. -/
theorem C4_withdraw_frozen (s : SC.State) (gid now : Nat) (g : SC.Grant)
    (hg : find s.grants gid = some g)
    (hf : g.is_paused = true ∨ g.dispute_active = true) :
    (SC.withdraw s gid now = .error .paused ∨ SC.withdraw s gid now = .error .disputed)
    ∧ SC.step s (.withdrawOp gid now) = s := by
  rcases hf with hp | hd
  · constructor
    · exact Or.inl (by simp [SC.withdraw, hg, hp])
    · simp [SC.step, SC.withdraw, hg, hp]
  · by_cases hp : g.is_paused
    · constructor
      · exact Or.inl (by simp [SC.withdraw, hg, hp])
      · simp [SC.step, SC.withdraw, hg, hp]
    · constructor
      · exact Or.inr (by simp [SC.withdraw, hg, hp, hd])
      · simp [SC.step, SC.withdraw, hg, hp, hd]

/-- C4 witness: a paused grant refuses withdrawal and the state is
untouched. -/
theorem C4_withdraw_frozen_witness :
    (SC.withdraw { grants := [(1, { admin := 7, grantee := 8, flow_rate := 5, balance := 1000,
                                    last_claim_time := 10, is_paused := true, token := 9,
                                    dispute_active := false })], count := 1, arbiter := none } 1 20
        = .error .paused
      ∨ SC.withdraw { grants := [(1, { admin := 7, grantee := 8, flow_rate := 5, balance := 1000,
                                       last_claim_time := 10, is_paused := true, token := 9,
                                       dispute_active := false })], count := 1, arbiter := none } 1 20
        = .error .disputed)
    ∧ SC.step { grants := [(1, { admin := 7, grantee := 8, flow_rate := 5, balance := 1000,
                                 last_claim_time := 10, is_paused := true, token := 9,
                                 dispute_active := false })], count := 1, arbiter := none }
        (.withdrawOp 1 20)
      = { grants := [(1, { admin := 7, grantee := 8, flow_rate := 5, balance := 1000,
                           last_claim_time := 10, is_paused := true, token := 9,
                           dispute_active := false })], count := 1, arbiter := none } :=
  C4_withdraw_frozen _ 1 20 _ rfl (Or.inl rfl)

/-- C2 counterexample: the source validates neither `total_amount` at
grant creation nor `amount` at milestone creation.  Approving a milestone
of amount -50 on a grant with released amount 0 drives
`released_amount` to -50: it decreases and leaves [0, total_amount].
Independently, creating a grant with `total_amount = -1` yields
`released_amount = 0 > total_amount` immediately. -/
theorem C2_counterexample :
    find (MC.run MC.C2ops).grants 1 =
      some { admin := 7, grantee := 8, total_amount := 100, released_amount := -50 }
    ∧ find (MC.run (MC.C2ops.take 2)).grants 1 =
      some { admin := 7, grantee := 8, total_amount := 100, released_amount := 0 }
    ∧ ¬ ((0 : Int) ≤ -50)
    ∧ find (MC.run [.create 1 7 8 (-1)]).grants 1 =
      some { admin := 7, grantee := 8, total_amount := -1, released_amount := 0 }
    ∧ ¬ ((0 : Int) ≤ -1) :=
  ⟨rfl, rfl, by norm_num, rfl, by norm_num⟩

/-- C2 amended: for every sequence of public operations in which each
`create_grant` has a nonnegative total and each `add_milestone` a
nonnegative amount, every grant in every intermediate state satisfies
`0 ≤ released_amount ≤ total_amount`, and `released_amount` never
decreases (and no grant is ever deleted) across the remaining
operations. -/
theorem C2_released_invariant (ops₁ ops₂ : List MC.Op)
    (h : ∀ op ∈ ops₁ ++ ops₂, MC.GoodOp op) :
    (∀ k g, find (MC.run ops₁).grants k = some g →
      0 ≤ g.released_amount ∧ g.released_amount ≤ g.total_amount)
    ∧ (∀ k g, find (MC.run ops₁).grants k = some g →
        ∃ g', find (MC.run (ops₁ ++ ops₂)).grants k = some g'
          ∧ g.released_amount ≤ g'.released_amount) := by
  have h₁ : ∀ op ∈ ops₁, MC.GoodOp op := fun op ho => h op (List.mem_append_left _ ho)
  have h₂ : ∀ op ∈ ops₂, MC.GoodOp op := fun op ho => h op (List.mem_append_right _ ho)
  have hinv₁ : MC.Inv (MC.run ops₁) := MC.inv_foldl ops₁ MC.init MC.inv_init h₁
  refine ⟨hinv₁.1, ?_⟩
  intro k g hk
  have hsplit : MC.run (ops₁ ++ ops₂) = ops₂.foldl MC.step (MC.run ops₁) := by
    simp [MC.run, List.foldl_append]
  rw [hsplit]
  exact MC.mono_foldl ops₂ (MC.run ops₁) hinv₁ h₂ k g hk

/-- C2 witness: after creating grant 1 (total 100), adding milestone 2
(amount 40) and approving it, the invariant holds at released amount 40
and a further approval of milestone 3 (amount 60) only increases it. -/
theorem C2_released_invariant_witness :
    (0 ≤ ({ admin := 7, grantee := 8, total_amount := 100,
            released_amount := 40 } : MC.Grant).released_amount
      ∧ ({ admin := 7, grantee := 8, total_amount := 100,
           released_amount := 40 } : MC.Grant).released_amount
        ≤ ({ admin := 7, grantee := 8, total_amount := 100,
             released_amount := 40 } : MC.Grant).total_amount)
    ∧ ∃ g', find (MC.run ([.create 1 7 8 100, .addM 1 2 40 "", .approve 1 2]
                  ++ [.addM 1 3 60 "", .approve 1 3])).grants 1 = some g'
        ∧ ({ admin := 7, grantee := 8, total_amount := 100,
             released_amount := 40 } : MC.Grant).released_amount ≤ g'.released_amount :=
  ⟨(C2_released_invariant [.create 1 7 8 100, .addM 1 2 40 "", .approve 1 2]
      [.addM 1 3 60 "", .approve 1 3] (by decide)).1 1
      { admin := 7, grantee := 8, total_amount := 100, released_amount := 40 } rfl,
   (C2_released_invariant [.create 1 7 8 100, .addM 1 2 40 "", .approve 1 2]
      [.addM 1 3 60 "", .approve 1 3] (by decide)).2 1
      { admin := 7, grantee := 8, total_amount := 100, released_amount := 40 } rfl⟩

/-- C9: in every state reachable by public operations, every stored
milestone has status Pending (0) or Released (2) — the Approved value (1)
is never produced — and the only transition a successful approval
performs is Pending (0) directly to Released (2). -/
theorem C9_status_domain (ops : List MC.Op) (gid mid : Nat) :
    (∀ k m, find (MC.run ops).milestones k = some m → m.status = 0 ∨ m.status = 2)
    ∧ (∀ m s' r, find (MC.run ops).milestones (gid, mid) = some m →
        MC.approve_milestone (MC.run ops) gid mid = .ok (s', r) →
        m.status = 0 ∧ find s'.milestones (gid, mid) = some { m with status := 2 }) := by
  refine ⟨MC.statusOK_run ops, ?_⟩
  intro m s' r hm happ
  obtain ⟨g, m₀, -, hm₀, hst, -, -, -, -, rfl⟩ := MC.approve_milestone_ok _ _ _ _ _ happ
  rw [hm] at hm₀
  cases hm₀
  have hdom := MC.statusOK_run ops (gid, mid) m hm
  refine ⟨by omega, ?_⟩
  rw [find_cons, if_pos rfl]

/-- C9 witness: a freshly added milestone (status 0) is approved from the
reachable state after [create, add]; its prior status is 0 and the stored
result has status 2. -/
theorem C9_status_domain_witness :
    ({ amount := 40, status := 0, description := "" } : MC.Milestone).status = 0
    ∧ find ({ grants := [(1, { admin := 7, grantee := 8, total_amount := 100,
                               released_amount := 0 + 40 }),
                         (1, { admin := 7, grantee := 8, total_amount := 100,
                               released_amount := 0 })],
              milestones := [((1, 2), { amount := 40, status := 2, description := "" }),
                             ((1, 2), { amount := 40, status := 0, description := "" })] }
               : MC.State).milestones (1, 2)
      = some { ({ amount := 40, status := 0, description := "" } : MC.Milestone) with
               status := 2 } :=
  (C9_status_domain [.create 1 7 8 100, .addM 1 2 40 ""] 1 2).2
    { amount := 40, status := 0, description := "" }
    { grants := [(1, { admin := 7, grantee := 8, total_amount := 100,
                       released_amount := 0 + 40 }),
                 (1, { admin := 7, grantee := 8, total_amount := 100,
                       released_amount := 0 })],
      milestones := [((1, 2), { amount := 40, status := 2, description := "" }),
                     ((1, 2), { amount := 40, status := 0, description := "" })] }
    40 rfl rfl

/-- C1: for a stored grant and a stored, not-yet-released milestone
(whose released-total sum stays in the `i128` range),
`approve_milestone` fails with `ExceedsTotal` exactly when
`released_amount + amount > total_amount` — landing exactly on
`total_amount` succeeds — and on success it stores the milestone with
status Released (2), stores the grant with `released_amount` incremented
by the milestone amount, and returns that amount. -/
theorem C1_approve_milestone_cap (s : MC.State) (gid mid : Nat) (g : MC.Grant) (m : MC.Milestone)
    (hg : find s.grants gid = some g)
    (hm : find s.milestones (gid, mid) = some m)
    (hs : m.status ≠ 2)
    (hlo : I128_MIN ≤ g.released_amount + m.amount)
    (hhi : g.released_amount + m.amount ≤ I128_MAX) :
    (MC.approve_milestone s gid mid = .error .exceedsTotal
      ↔ g.total_amount < g.released_amount + m.amount)
    ∧ (g.released_amount + m.amount ≤ g.total_amount →
        MC.approve_milestone s gid mid =
          .ok ({ grants := (gid, { g with released_amount := g.released_amount + m.amount })
                   :: s.grants,
                 milestones := ((gid, mid), { m with status := 2 }) :: s.milestones },
               m.amount)) := by
  have hadd : checkedAdd128 g.released_amount m.amount = some (g.released_amount + m.amount) := by
    simp [checkedAdd128, hlo, hhi]
  by_cases hcap : g.total_amount < g.released_amount + m.amount
  · constructor
    · simp [MC.approve_milestone, hg, hm, hs, hadd, hcap]
    · intro hle; omega
  · constructor
    · simp [MC.approve_milestone, hg, hm, hs, hadd, hcap]
    · intro _; simp [MC.approve_milestone, hg, hm, hs, hadd, hcap]

/-- C1 witness: grant with total 100 and released 10; approving a
milestone of 40 succeeds, lands at 50 and returns 40. -/
theorem C1_approve_milestone_cap_witness :
    MC.approve_milestone
        { grants := [(1, { admin := 7, grantee := 8, total_amount := 100, released_amount := 10 })],
          milestones := [((1, 2), { amount := 40, status := 0, description := "" })] } 1 2
      = .ok ({ grants := [(1, { admin := 7, grantee := 8, total_amount := 100,
                                released_amount := 10 + 40 }),
                          (1, { admin := 7, grantee := 8, total_amount := 100,
                                released_amount := 10 })],
               milestones := [((1, 2), { amount := 40, status := 2, description := "" }),
                              ((1, 2), { amount := 40, status := 0, description := "" })] },
             40) :=
  (C1_approve_milestone_cap
      { grants := [(1, { admin := 7, grantee := 8, total_amount := 100, released_amount := 10 })],
        milestones := [((1, 2), { amount := 40, status := 0, description := "" })] } 1 2
      { admin := 7, grantee := 8, total_amount := 100, released_amount := 10 }
      { amount := 40, status := 0, description := "" }
      rfl rfl (by decide) (by norm_num [I128_MIN]) (by norm_num [I128_MAX])).2 (by norm_num)

/-- C3: an unfrozen withdrawal at time `now` (clock not regressed,
accrual within the `i128` range) computes
`payout = min (flow_rate * (now - last_claim_time)) balance`; if the
payout is positive it succeeds, decrements the balance by exactly the
payout and advances `last_claim_time` to `now`; if the payout is zero it
succeeds with no state mutation — a valid no-op, not an error.  (The
token transfer to the grantee is an external collaborator and occurs
only in the positive case.) -/
theorem C3_withdraw_payout (s : SC.State) (gid now : Nat) (g : SC.Grant) (payout : Int)
    (hg : find s.grants gid = some g)
    (hp : g.is_paused = false)
    (hd : g.dispute_active = false)
    (ht : g.last_claim_time ≤ now)
    (hlo : I128_MIN ≤ g.flow_rate * ((now - g.last_claim_time : Nat) : Int))
    (hhi : g.flow_rate * ((now - g.last_claim_time : Nat) : Int) ≤ I128_MAX)
    (hpv : payout = min (g.flow_rate * ((now - g.last_claim_time : Nat) : Int)) g.balance) :
    (0 < payout →
      SC.withdraw s gid now =
        .ok ({ s with grants :=
                (gid, { g with balance := g.balance - payout, last_claim_time := now })
                  :: s.grants },
             payout))
    ∧ (payout = 0 → SC.withdraw s gid now = .ok (s, 0)) := by
  have hsub : checkedSub64 now g.last_claim_time = some (now - g.last_claim_time) := by
    simp [checkedSub64, ht]
  have hmul : checkedMul128 g.flow_rate ((now - g.last_claim_time : Nat) : Int)
      = some (g.flow_rate * ((now - g.last_claim_time : Nat) : Int)) := by
    simp [checkedMul128, hlo, hhi]
  have hmin : (if g.balance ≥ g.flow_rate * ((now - g.last_claim_time : Nat) : Int) then
        g.flow_rate * ((now - g.last_claim_time : Nat) : Int) else g.balance) = payout := by
    rw [hpv]
    rcases le_or_lt (g.flow_rate * ((now - g.last_claim_time : Nat) : Int)) g.balance
      with hc | hc
    · rw [if_pos hc, min_eq_left hc]
    · rw [if_neg (by omega), min_eq_right (by omega)]
  constructor
  · intro hpos
    simp only [SC.withdraw, hg, hp, hd, hsub, hmul]
    simp only [Bool.false_eq_true, if_false, hmin, if_pos hpos]
  · intro hz
    simp only [SC.withdraw, hg, hp, hd, hsub, hmul]
    simp only [Bool.false_eq_true, if_false, hmin, hz]
    norm_num

/-- C3 witness: flow rate 5, balance 1000, 20 seconds elapsed: payout
100, balance 900, `last_claim_time` advanced to 120. -/
theorem C3_withdraw_payout_witness :
    SC.withdraw { grants := [(1, { admin := 7, grantee := 8, flow_rate := 5, balance := 1000,
                                   last_claim_time := 100, is_paused := false, token := 9,
                                   dispute_active := false })], count := 1, arbiter := none } 1 120
      = .ok ({ grants := [(1, { admin := 7, grantee := 8, flow_rate := 5,
                                balance := 1000 - 100, last_claim_time := 120,
                                is_paused := false, token := 9, dispute_active := false }),
                          (1, { admin := 7, grantee := 8, flow_rate := 5, balance := 1000,
                                last_claim_time := 100, is_paused := false, token := 9,
                                dispute_active := false })], count := 1, arbiter := none },
             100) :=
  (C3_withdraw_payout
      { grants := [(1, { admin := 7, grantee := 8, flow_rate := 5, balance := 1000,
                         last_claim_time := 100, is_paused := false, token := 9,
                         dispute_active := false })], count := 1, arbiter := none } 1 120
      { admin := 7, grantee := 8, flow_rate := 5, balance := 1000, last_claim_time := 100,
        is_paused := false, token := 9, dispute_active := false }
      100 rfl rfl rfl (by decide) (by norm_num [I128_MIN]) (by norm_num [I128_MAX])
      (by norm_num)).1 (by norm_num)

set_option maxRecDepth 4000 in
/-- C10 counterexample: a streaming grant with balance 0, positive flow
rate and positive accrual (`amount_due = 5 > 0 = balance`).  The claim
says a successful withdraw still advances `last_claim_time` to the
current time; in the source the `payout > 0` branch is skipped, the
withdraw succeeds as a no-op and `last_claim_time` stays 0 ≠ 5. -/
theorem C10_counterexample :
    0 < SC.C10grant.flow_rate
    ∧ SC.C10grant.balance < SC.C10grant.flow_rate * ((5 - SC.C10grant.last_claim_time : Nat) : Int)
    ∧ SC.withdraw SC.C10state 1 5 = .ok (SC.C10state, SC.C10grant.balance)
    ∧ SC.step SC.C10state (.withdrawOp 1 5) = SC.C10state
    ∧ SC.C10grant.last_claim_time ≠ 5 :=
  ⟨by norm_num [SC.C10grant], by norm_num [SC.C10grant], rfl, rfl, by norm_num [SC.C10grant]⟩

/-- C10 amended: for a streaming grant with *positive* balance whose
accrued `amount_due` strictly exceeds the balance (positive flow rate,
clock not regressed, accrual in the `i128` range), a successful withdraw
pays out exactly the full balance, leaves the balance 0 and advances
`last_claim_time` to the current time, so the excess accrual is
forfeited; with balance 0 the withdraw is instead a successful no-op that
leaves `last_claim_time` unchanged. -/
theorem C10_forfeit_excess (s : SC.State) (gid now : Nat) (g : SC.Grant)
    (hg : find s.grants gid = some g)
    (hp : g.is_paused = false)
    (hd : g.dispute_active = false)
    (ht : g.last_claim_time ≤ now)
    (hr : 0 < g.flow_rate)
    (hb : 0 < g.balance)
    (hlo : I128_MIN ≤ g.flow_rate * ((now - g.last_claim_time : Nat) : Int))
    (hhi : g.flow_rate * ((now - g.last_claim_time : Nat) : Int) ≤ I128_MAX)
    (hdue : g.balance < g.flow_rate * ((now - g.last_claim_time : Nat) : Int)) :
    SC.withdraw s gid now =
      .ok ({ s with grants := (gid, { g with balance := 0, last_claim_time := now })
               :: s.grants },
           g.balance) := by
  have hsub : checkedSub64 now g.last_claim_time = some (now - g.last_claim_time) := by
    simp [checkedSub64, ht]
  have hmul : checkedMul128 g.flow_rate ((now - g.last_claim_time : Nat) : Int)
      = some (g.flow_rate * ((now - g.last_claim_time : Nat) : Int)) := by
    simp [checkedMul128, hlo, hhi]
  have hnge : ¬ g.balance ≥ g.flow_rate * ((now - g.last_claim_time : Nat) : Int) := by omega
  simp only [SC.withdraw, hg, hp, hd, hsub, hmul]
  simp only [Bool.false_eq_true, if_false, if_neg hnge, if_pos hb]
  have : g.balance - g.balance = 0 := by omega
  simp [this]

/-- C10 witness: balance 30 with 50 accrued (flow rate 5, 10 seconds):
the full 30 is paid, the balance is zeroed, `last_claim_time` advances. -/
theorem C10_forfeit_excess_witness :
    SC.withdraw { grants := [(1, { admin := 7, grantee := 8, flow_rate := 5, balance := 30,
                                   last_claim_time := 100, is_paused := false, token := 9,
                                   dispute_active := false })], count := 1, arbiter := none } 1 110
      = .ok ({ grants := [(1, { admin := 7, grantee := 8, flow_rate := 5, balance := 0,
                                last_claim_time := 110, is_paused := false, token := 9,
                                dispute_active := false }),
                          (1, { admin := 7, grantee := 8, flow_rate := 5, balance := 30,
                                last_claim_time := 100, is_paused := false, token := 9,
                                dispute_active := false })], count := 1, arbiter := none },
             30) :=
  C10_forfeit_excess
    { grants := [(1, { admin := 7, grantee := 8, flow_rate := 5, balance := 30,
                       last_claim_time := 100, is_paused := false, token := 9,
                       dispute_active := false })], count := 1, arbiter := none } 1 110
    { admin := 7, grantee := 8, flow_rate := 5, balance := 30, last_claim_time := 100,
      is_paused := false, token := 9, dispute_active := false }
    rfl rfl rfl (by decide) (by decide) (by decide)
    (by norm_num [I128_MIN]) (by norm_num [I128_MAX]) (by norm_num)

/-- C5: in every state reachable by any sequence of public streaming
operations from empty storage, every stored grant has `balance ≥ 0`, and
any withdrawal that succeeds from such a state pays out at most the
balance held immediately before it. -/
theorem C5_balance_invariant (ops : List SC.Op) (gid now : Nat) (g : SC.Grant)
    (s' : SC.State) (p : Int) :
    (∀ k g₀, find (SC.run ops).grants k = some g₀ → 0 ≤ g₀.balance)
    ∧ (find (SC.run ops).grants gid = some g →
        SC.withdraw (SC.run ops) gid now = .ok (s', p) → p ≤ g.balance) := by
  refine ⟨SC.balInv_run ops, ?_⟩
  intro hg hw
  obtain ⟨g₁, hg₁, -, -, -, due, -, hpv, -⟩ := SC.withdraw_ok _ _ _ _ _ hw
  rw [hg] at hg₁
  cases hg₁
  rw [hpv]
  split <;> omega

/-- C5 witness: after creating a grant with deposit 1000 and flow rate 5,
the reachable balance is nonnegative, and the withdrawal 10 seconds later
pays 50 ≤ 1000. -/
theorem C5_balance_invariant_witness :
    (0 : Int) ≤ ({ admin := 7, grantee := 8, flow_rate := 5, balance := 1000,
                   last_claim_time := 100, is_paused := false, token := 9,
                   dispute_active := false } : SC.Grant).balance
    ∧ (50 : Int) ≤ ({ admin := 7, grantee := 8, flow_rate := 5, balance := 1000,
                      last_claim_time := 100, is_paused := false, token := 9,
                      dispute_active := false } : SC.Grant).balance :=
  ⟨(C5_balance_invariant [.create 7 8 1000 5 9 100] 1 110
      { admin := 7, grantee := 8, flow_rate := 5, balance := 1000, last_claim_time := 100,
        is_paused := false, token := 9, dispute_active := false }
      { grants := [(1, { admin := 7, grantee := 8, flow_rate := 5, balance := 1000 - 50,
                         last_claim_time := 110, is_paused := false, token := 9,
                         dispute_active := false }),
                   (1, { admin := 7, grantee := 8, flow_rate := 5, balance := 1000,
                         last_claim_time := 100, is_paused := false, token := 9,
                         dispute_active := false })], count := 1, arbiter := none }
      50).1 1
      { admin := 7, grantee := 8, flow_rate := 5, balance := 1000, last_claim_time := 100,
        is_paused := false, token := 9, dispute_active := false } rfl,
   (C5_balance_invariant [.create 7 8 1000 5 9 100] 1 110
      { admin := 7, grantee := 8, flow_rate := 5, balance := 1000, last_claim_time := 100,
        is_paused := false, token := 9, dispute_active := false }
      { grants := [(1, { admin := 7, grantee := 8, flow_rate := 5, balance := 1000 - 50,
                         last_claim_time := 110, is_paused := false, token := 9,
                         dispute_active := false }),
                   (1, { admin := 7, grantee := 8, flow_rate := 5, balance := 1000,
                         last_claim_time := 100, is_paused := false, token := 9,
                         dispute_active := false })], count := 1, arbiter := none }
      50).2 rfl rfl⟩

end GrantVerify
